import Mathlib

/-!
Verification of the MedVision statistical comparison core.

This file gives a shallow embedding of the two core functions of the
repository and proves the specified properties about them:

* modules/preprocess.py : preprocess_image       (image normalizer)
* modules/compare_ssim_mse.py : compare_with_dataset  (corpus comparator)

Modelling conventions.

* Floating point values are modelled as rationals.  Because this Mathlib
  marks the arithmetic kernels of Rat (Rat.add, Rat.mul, Rat.inv, ...)
  irreducible, the embedding performs its arithmetic through the
  executable wrappers qadd, qsub, qmul, qdiv, qabs defined below via
  Rat.divInt; the bridge lemmas qadd_eq, qsub_eq, qmul_eq, qdiv_eq and
  qabs_eq prove that these are exactly addition, subtraction,
  multiplication, division and absolute value on the rationals, so every
  theorem can be read in ordinary field notation.

* The surrounding world (filesystem contents, the cv2 image routines,
  the scikit-image ssim metric, numpy, and the random sampler) are
  external to the repository; they are modelled as an explicit
  environment of oracles (structures Env and CvEnv).  The repository's
  own control flow and arithmetic are translated line by line.

* Images only flow through the comparator and into the external metric
  oracles, so an image is modelled as its shape together with an opaque
  content handle.

* A Python exception of the modelled kinds is an Except.error value;
  Python None is Option.none; a Python dict with string keys is an
  association list with first-match lookup and in-place update
  (insertion order preserved, as for Python dicts).
-/

namespace MedVision

/-- Decidable equality of Except values, used to evaluate concrete runs
of the embedding. -/
instance {ε α : Type} [DecidableEq ε] [DecidableEq α] : DecidableEq (Except ε α) := fun a b =>
  match a, b with
  | Except.error e, Except.error f =>
    if h : e = f then Decidable.isTrue (by rw [h])
    else Decidable.isFalse (by intro hh; cases hh; exact h rfl)
  | Except.ok x, Except.ok y =>
    if h : x = y then Decidable.isTrue (by rw [h])
    else Decidable.isFalse (by intro hh; cases hh; exact h rfl)
  | Except.error _, Except.ok _ => Decidable.isFalse (by intro hh; cases hh)
  | Except.ok _, Except.error _ => Decidable.isFalse (by intro hh; cases hh)

/-! ## Executable rational arithmetic -/

/-- Addition on the rationals, written with the executable Rat.divInt
so that concrete runs of the embedding reduce inside the kernel. -/
def qadd (a b : ℚ) : ℚ := Rat.divInt (a.num * b.den + b.num * a.den) (a.den * b.den)

/-- Subtraction on the rationals, executable form. -/
def qsub (a b : ℚ) : ℚ := Rat.divInt (a.num * b.den - b.num * a.den) (a.den * b.den)

/-- Multiplication on the rationals, executable form. -/
def qmul (a b : ℚ) : ℚ := Rat.divInt (a.num * b.num) (a.den * b.den)

/-- Division on the rationals, executable form; division by zero yields
zero, in agreement with Mathlib's convention for field division. -/
def qdiv (a b : ℚ) : ℚ := Rat.divInt (a.num * b.den) (a.den * b.num)

/-- Absolute value on the rationals, executable form. -/
def qabs (a : ℚ) : ℚ := if a < 0 then -a else a

/-! ## The image normalizer: modules/preprocess.py -/

/-- A decoded grayscale raster: a grid of 8-bit intensity samples,
row major. -/
abbrev Grid := List (List Nat)

/-- Oracles for the cv2 routines used by preprocess_image.  Each routine
may raise (Except.error); cv2.imread additionally returns None instead
of raising when the file cannot be decoded. -/
structure CvEnv where
  imread : String → Except Unit (Option Grid)
  resize : Grid → Nat × Nat → Except Unit Grid
  normalizeMinMax : Grid → Except Unit Grid
  claheApply : ℚ → Nat × Nat → Grid → Except Unit Grid
  gaussianBlur : Grid → Nat × Nat → Nat → Except Unit Grid

/-- Body of the try-block of preprocess_image: decode as grayscale,
return None if the decode gave None, else resize to 512x512, min-max
normalize, apply CLAHE with clip limit 2.0 and tile grid 8x8, and
Gaussian blur with a 3x3 kernel; any exception propagates. -/
def tryPreprocessBody (cv : CvEnv) (image_path : String) : Except Unit (Option Grid) := do
  let imgOpt ← cv.imread image_path
  match imgOpt with
  | none => return none
  | some img0 => do
    let img1 ← cv.resize img0 (512, 512)
    let img2 ← cv.normalizeMinMax img1
    let img3 ← cv.claheApply 2 (8, 8) img2
    let img4 ← cv.gaussianBlur img3 (3, 3) 0
    return some img4

/-- The function preprocess_image of modules/preprocess.py: the whole
body runs inside a try; every exception is caught and converted to the
result None. -/
def preprocess_image (cv : CvEnv) (image_path : String) : Except Unit (Option Grid) :=
  match tryPreprocessBody cv image_path with
  | Except.error _ => Except.ok none
  | Except.ok r => Except.ok r

/-- The grid has exactly 512 rows of exactly 512 samples each. -/
def isGrid512 (g : Grid) : Prop := g.length = 512 ∧ ∀ row ∈ g, row.length = 512

/-- Every sample of the grid lies in the 8-bit range. -/
def inByteRange (g : Grid) : Prop := ∀ row ∈ g, ∀ v ∈ row, v ≤ 255

/-! ## The corpus comparator: modules/compare_ssim_mse.py -/

/-- An image value as seen by the comparator: its pixel-dimension shape
and an opaque content handle.  Content only flows into the external
metric oracles, so it needs no further structure. -/
structure Img where
  shape : Nat × Nat
  data : Nat
deriving DecidableEq

/-- The world the comparator runs against: the preprocessing routine
(modelled at this layer as a path-indexed oracle), the filesystem
listing, the random sampler, the float rescaling and cv2.resize on
in-memory images, and the ssim / mse metrics.  The ssim oracle may
raise ValueError (Except.error); mse is total. -/
structure Env where
  base_data_dir : String
  preprocess_image : String → Option Img
  isdir : String → Bool
  listdir : String → List String
  randomSample : List String → Nat → List String
  toFloat01 : Img → Img
  cvResize : Img → Nat × Nat → Img
  ssimFn : Img → Img → Except Unit ℚ
  mseFn : Img → Img → ℚ

/-- Python os.path.join for a directory and a relative file name. -/
def pathJoin (a b : String) : String := a ++ "/" ++ b

/-- ASCII lowering of a file name, Python str.lower. -/
def strLower (s : String) : String := String.mk (s.data.map Char.toLower)

/-- Python str.endswith on the given single candidate. -/
def strEndsWith (s t : String) : Bool := t.data.isSuffixOf s.data

/-- The list-comprehension filter of compare_with_dataset line 47:
f.lower().endswith((".jpg", ".jpeg", ".png")). -/
def isEligibleName (f : String) : Bool :=
  strEndsWith (strLower f) (".jpg") || strEndsWith (strLower f) (".jpeg")
    || strEndsWith (strLower f) (".png")

/-- The running best-match dict.  The initial dict of line 38 sets
ssim to -1.0 and mse to float infinity; the infinity placeholder is
modelled as none, and it is never read before being overwritten. -/
structure Best where
  category : Option String
  ssim : ℚ
  mse : Option ℚ
  path : Option String
deriving DecidableEq

/-- Initial best match: category None, ssim -1.0, mse inf, path None. -/
def initBest : Best := Best.mk none (-1) none none

/-- Per-category entry of results_summary. -/
structure CatResult where
  avg_ssim : Option ℚ
  avg_mse : Option ℚ
  samples_compared : Nat
deriving DecidableEq

/-- Python dict assignment d[k] = v on a string-keyed association list:
replace the value in place when the key is present, else append. -/
def dictInsert (d : List (String × CatResult)) (k : String) (v : CatResult) :
    List (String × CatResult) :=
  match d with
  | [] => [(k, v)]
  | kv :: rest => if kv.1 = k then (k, v) :: rest else kv :: dictInsert rest k v

/-- numpy median of the accumulated scores: sort ascending; the middle
element for odd length, the mean of the two middle elements for even
length.  Only applied to nonempty lists by the comparator. -/
def npMedian (l : List ℚ) : ℚ :=
  let s := l.insertionSort (fun a b => a ≤ b)
  let n := s.length
  if n % 2 = 1 then s.getD (n / 2) 0
  else qdiv (qadd (s.getD (n / 2 - 1) 0) (s.getD (n / 2) 0)) 2

/-- Python round(x, n): round half to even at n decimal digits. -/
def roundHalfEven (y : ℚ) : ℤ :=
  let f : ℤ := Int.floor y
  let r : ℚ := qsub y (f : ℚ)
  if r < qdiv 1 2 then f
  else if qdiv 1 2 < r then f + 1
  else if f % 2 = 0 then f else f + 1

/-- Python round(x, n) as a rational: scale by 10 ^ n, round half to
even, scale back. -/
def pyRound (x : ℚ) (n : Nat) : ℚ :=
  qdiv ((roundHalfEven (qmul x (((10 : ℤ) ^ n : ℤ) : ℚ)) : ℤ) : ℚ) (((10 : ℤ) ^ n : ℤ) : ℚ)

/-- Python (x or 0.0) on an optional float: None and 0.0 are falsy and
produce 0.0; every other float is returned unchanged. -/
def orZero (x : Option ℚ) : ℚ :=
  match x with
  | none => 0
  | some v => if v = 0 then 0 else v

/-- Body of the per-sample loop of compare_with_dataset lines 56-68:
preprocess the drawn file (None means skip), rescale to [0,1], resize
to the uploaded shape when the shapes differ, then compute ssim and
mse; a ValueError from the metric computation means skip.  Returns the
(ssim, mse) pair of a successful sample. -/
def sampleOutcome (env : Env) (uploaded : Img) (uploaded_shape : Nat × Nat)
    (path : String) : Option (ℚ × ℚ) :=
  match env.preprocess_image path with
  | none => none
  | some img0 =>
    let img1 := env.toFloat01 img0
    let img := if img1.shape ≠ uploaded_shape
      then env.cvResize img1 (uploaded_shape.2, uploaded_shape.1) else img1
    match env.ssimFn uploaded img with
    | Except.error _ => none
    | Except.ok s => some (s, env.mseFn uploaded img)

/-- One iteration of the sample loop on the accumulator
(ssim_scores, mse_scores, best_match): skip on failure, else append
both scores and update the running best match when the new ssim
strictly exceeds the current one (lines 70-74). -/
def processSample (env : Env) (uploaded : Img) (uploaded_shape : Nat × Nat)
    (category : String) (st : List ℚ × List ℚ × Best) (path : String) :
    List ℚ × List ℚ × Best :=
  match sampleOutcome env uploaded uploaded_shape path with
  | none => st
  | some sm =>
    (st.1 ++ [sm.1], st.2.1 ++ [sm.2],
      if st.2.2.ssim < sm.1 then Best.mk (some category) sm.1 (some sm.2) (some path) else st.2.2)

/-- The body of the per-category loop of compare_with_dataset lines
40-84 acting on (results_summary, best_match): absent directory or no
eligible files record a null summary; otherwise draw
min(sample_size, population) files, run the sample loop, and record
median aggregates and the count of successful samples. -/
def processCategory (env : Env) (uploaded : Img) (uploaded_shape : Nat × Nat)
    (sample_size : Nat) (st : List (String × CatResult) × Best) (category : String) :
    List (String × CatResult) × Best :=
  let cat_dir := pathJoin env.base_data_dir category
  if env.isdir cat_dir = false then
    (dictInsert st.1 category (CatResult.mk none none 0), st.2)
  else
    let files := ((env.listdir cat_dir).filter isEligibleName).map (fun f => pathJoin cat_dir f)
    if files.isEmpty then
      (dictInsert st.1 category (CatResult.mk none none 0), st.2)
    else
      let sampled := env.randomSample files (min sample_size files.length)
      let r := sampled.foldl (processSample env uploaded uploaded_shape category) ([], [], st.2)
      (dictInsert st.1 category
        (CatResult.mk (if r.1.isEmpty then none else some (npMedian r.1))
          (if r.2.1.isEmpty then none else some (npMedian r.2.1)) r.1.length),
       r.2.2)

/-- The whole category loop, folded over the categories argument. -/
def runCategories (env : Env) (uploaded : Img) (uploaded_shape : Nat × Nat)
    (sample_size : Nat) (categories : List String) : List (String × CatResult) × Best :=
  categories.foldl (processCategory env uploaded uploaded_shape sample_size) ([], initBest)

/-- Per-category block of the returned summary. -/
structure CatOut where
  avg_ssim : ℚ
  avg_mse : Option ℚ
  similarity_percent : ℚ
  samples_compared : Nat
deriving DecidableEq

/-- The record returned by compare_with_dataset: best match (or None),
the NORMAL and PNEUMONIA summary blocks, the rounded confidence margin,
and the prediction string. -/
structure Record where
  best_match : Option Best
  summary_NORMAL : CatOut
  summary_PNEUMONIA : CatOut
  confidence_diff : ℚ
  prediction : String
deriving DecidableEq

/-- Verdict string of line 93. -/
def uncertainMsg : String := "Uncertain Result 🤔 (SSIM scores too close)"

/-- Verdict string of line 95. -/
def pneumoniaMsg : String := "Pneumonia Detected 🫁"

/-- Verdict string of line 97. -/
def normalMsg : String := "Normal Lungs ✅"

/-- The ValueError message of line 32. -/
def preprocessFailMsg : String := "❌ Uploaded image could not be preprocessed."

/-- Python exceptions surfaced by the comparator. -/
inductive PyError where
  | valueError : String → PyError
deriving DecidableEq

/-- Construction of the returned record, lines 86-122: missing-value
handling with (x or 0.0), the confidence-margin decision, the
percentage conversion with its zero-total guard, and the assembly of
the output dict (whose per-category avg_ssim entries are the coalesced
scores normal_score and pneu_score). -/
def recordOf (env : Env) (up0 : Img) (sample_size : Nat) (categories : List String) : Record :=
  let uploaded := env.toFloat01 up0
  let uploaded_shape := uploaded.shape
  let rb := runCategories env uploaded uploaded_shape sample_size categories
  let results_summary := rb.1
  let best_match := rb.2
  let normal_score := orZero ((results_summary.lookup ("NORMAL")).bind (fun c => c.avg_ssim))
  let pneu_score := orZero ((results_summary.lookup ("PNEUMONIA")).bind (fun c => c.avg_ssim))
  let diff := qabs (qsub pneu_score normal_score)
  let prediction := if diff < qdiv 2 100 then uncertainMsg
    else if normal_score < pneu_score then pneumoniaMsg else normalMsg
  let total := if 0 < qadd normal_score pneu_score then qadd normal_score pneu_score else 1
  let normal_percent := qmul (qdiv normal_score total) 100
  let pneu_percent := qmul (qdiv pneu_score total) 100
  Record.mk
    (match best_match.path with
     | none => none
     | some p => if p = "" then none else some best_match)
    (CatOut.mk normal_score ((results_summary.lookup ("NORMAL")).bind (fun c => c.avg_mse))
      (pyRound normal_percent 2)
      (((results_summary.lookup ("NORMAL")).map (fun c => c.samples_compared)).getD 0))
    (CatOut.mk pneu_score ((results_summary.lookup ("PNEUMONIA")).bind (fun c => c.avg_mse))
      (pyRound pneu_percent 2)
      (((results_summary.lookup ("PNEUMONIA")).map (fun c => c.samples_compared)).getD 0))
    (pyRound diff 4)
    prediction

/-- The function compare_with_dataset of modules/compare_ssim_mse.py:
preprocess the uploaded image, raising ValueError when that yields
None, then run the category loop and assemble the result record. -/
def compare_with_dataset (env : Env) (uploaded_image_path : String) (sample_size : Nat)
    (categories : List String) : Except PyError Record :=
  match env.preprocess_image uploaded_image_path with
  | none => Except.error (PyError.valueError preprocessFailMsg)
  | some up0 => Except.ok (recordOf env up0 sample_size categories)

/-! ## Derived views of a run, used to state the properties -/

/-- A successful sample of a run: its category, drawn file path, and
its ssim and mse scores. -/
structure Entry where
  category : String
  path : String
  s : ℚ
  m : ℚ
deriving DecidableEq

/-- The best-match dict a successful sample writes when it wins. -/
def entryBest (e : Entry) : Best := Best.mk (some e.category) e.s (some e.m) (some e.path)

/-- The running-maximum update of lines 73-74 replayed over a list of
successful samples. -/
def foldBest (b : Best) (L : List Entry) : Best :=
  L.foldl (fun b e => if b.ssim < e.s then entryBest e else b) b

/-- The successful samples among the given drawn paths, in draw order. -/
def catEntries (env : Env) (uploaded : Img) (uploaded_shape : Nat × Nat)
    (category : String) (paths : List String) : List Entry :=
  paths.filterMap (fun p =>
    (sampleOutcome env uploaded uploaded_shape p).map (fun sm => Entry.mk category p sm.1 sm.2))

/-- The eligible file names of a category directory. -/
def eligibleFiles (env : Env) (category : String) : List String :=
  (env.listdir (pathJoin env.base_data_dir category)).filter isEligibleName

/-- The successful samples contributed by one category: none when its
directory is absent or holds no eligible files, else the successful
ones among the random draw. -/
def catEntriesFull (env : Env) (uploaded : Img) (uploaded_shape : Nat × Nat)
    (sample_size : Nat) (category : String) : List Entry :=
  let cat_dir := pathJoin env.base_data_dir category
  if env.isdir cat_dir = false then []
  else
    let files := ((env.listdir cat_dir).filter isEligibleName).map (fun f => pathJoin cat_dir f)
    if files.isEmpty then []
    else catEntries env uploaded uploaded_shape category
      (env.randomSample files (min sample_size files.length))

/-- The summary entry one category contributes to results_summary. -/
def catSummary (env : Env) (uploaded : Img) (uploaded_shape : Nat × Nat)
    (sample_size : Nat) (category : String) : CatResult :=
  let E := catEntriesFull env uploaded uploaded_shape sample_size category
  CatResult.mk (if E.isEmpty then none else some (npMedian (E.map (fun e => e.s))))
    (if E.isEmpty then none else some (npMedian (E.map (fun e => e.m)))) E.length

/-- All successful samples of a run, in processing order across the
categories. -/
def runEntries (env : Env) (uploaded : Img) (uploaded_shape : Nat × Nat)
    (sample_size : Nat) : List String → List Entry
  | [] => []
  | c :: cs => catEntriesFull env uploaded uploaded_shape sample_size c
      ++ runEntries env uploaded uploaded_shape sample_size cs

/-- All successful samples of the run performed by
compare_with_dataset for the given uploaded image. -/
def runEntriesOf (env : Env) (up0 : Img) (sample_size : Nat) (categories : List String) :
    List Entry :=
  runEntries env (env.toFloat01 up0) (env.toFloat01 up0).shape sample_size categories

/-- The results_summary dict built by the run of compare_with_dataset
for the given uploaded image. -/
def summaryOf (env : Env) (up0 : Img) (sample_size : Nat) (categories : List String) :
    List (String × CatResult) :=
  (runCategories env (env.toFloat01 up0) (env.toFloat01 up0).shape sample_size categories).1

/-- The final running best match of the run of compare_with_dataset
for the given uploaded image. -/
def bestOf (env : Env) (up0 : Img) (sample_size : Nat) (categories : List String) : Best :=
  (runCategories env (env.toFloat01 up0) (env.toFloat01 up0).shape sample_size categories).2

/-- The decision score of a category: its median similarity, taken as
0.0 when the category has no aggregate (lines 87-88). -/
def scoreOf (env : Env) (up0 : Img) (sample_size : Nat) (categories : List String)
    (c : String) : ℚ :=
  orZero (((summaryOf env up0 sample_size categories).lookup c).bind (fun r => r.avg_ssim))

/-- The percentage denominator of line 100: the sum of the two decision
scores, guarded to 1 when that sum is not positive. -/
def totalOf (env : Env) (up0 : Img) (sample_size : Nat) (categories : List String) : ℚ :=
  if 0 < qadd (scoreOf env up0 sample_size categories ("NORMAL"))
      (scoreOf env up0 sample_size categories ("PNEUMONIA"))
  then qadd (scoreOf env up0 sample_size categories ("NORMAL"))
      (scoreOf env up0 sample_size categories ("PNEUMONIA"))
  else 1

/-! ## Concrete environments used to instantiate the theorems -/

/-- The default categories tuple of the Python signature. -/
def defaultCategories : List String := ["NORMAL", "PNEUMONIA"]

/-- A canonical 512x512 image handle. -/
def imgW : Img := Img.mk (512, 512) 0

/-- A minimal world: every image preprocesses to imgW, only the NORMAL
directory exists and lists one eligible file, the sampler is a prefix
draw, and every ssim comparison yields the given score with mse 0. -/
def mkSimpleEnv (q : ℚ) : Env :=
  Env.mk ("d") (fun _ => some imgW) (fun s => s == "d/NORMAL") (fun _ => ["a.jpg"])
    (fun l k => l.take k) (fun i => i) (fun i _ => i) (fun _ _ => Except.ok q) (fun _ _ => 0)

/-- World with one NORMAL sample of similarity 1/2. -/
def envA : Env := mkSimpleEnv (qdiv 1 2)

/-- World whose one NORMAL sample has negative similarity -1/2. -/
def envC5 : Env := mkSimpleEnv (qdiv (-1) 2)

/-- World whose one NORMAL sample has similarity exactly -1, the
sentinel value of the best-match tracker. -/
def envC8 : Env := mkSimpleEnv (-1)

/-- World where no image can be preprocessed. -/
def envFail : Env :=
  Env.mk ("d") (fun _ => none) (fun _ => false) (fun _ => [])
    (fun l k => l.take k) (fun i => i) (fun i _ => i) (fun _ _ => Except.error ()) (fun _ _ => 0)

/-- World where the NORMAL directory is absent while PNEUMONIA holds
one sample of similarity 1/2. -/
def envC4 : Env :=
  Env.mk ("d") (fun _ => some imgW) (fun s => s == "d/PNEUMONIA") (fun _ => ["a.jpg"])
    (fun l k => l.take k) (fun i => i) (fun i _ => i) (fun _ _ => Except.ok (qdiv 1 2))
    (fun _ _ => 0)

/-- A cv2 world in which every routine raises. -/
def cvEnvW : CvEnv :=
  CvEnv.mk (fun _ => Except.error ()) (fun _ _ => Except.error ()) (fun _ => Except.error ())
    (fun _ _ _ => Except.error ()) (fun _ _ _ => Except.error ())

/-! ## Bridge lemmas for the executable arithmetic -/

lemma qadd_eq (a b : ℚ) : qadd a b = a + b := by
  have ha : ((a.den : ℚ)) ≠ 0 := by exact_mod_cast a.den_nz
  have hb : ((b.den : ℚ)) ≠ 0 := by exact_mod_cast b.den_nz
  rw [qadd, Rat.divInt_eq_div]
  push_cast
  conv_rhs => rw [← Rat.num_div_den a, ← Rat.num_div_den b]
  rw [div_add_div _ _ ha hb]
  ring_nf

lemma qsub_eq (a b : ℚ) : qsub a b = a - b := by
  have ha : ((a.den : ℚ)) ≠ 0 := by exact_mod_cast a.den_nz
  have hb : ((b.den : ℚ)) ≠ 0 := by exact_mod_cast b.den_nz
  rw [qsub, Rat.divInt_eq_div]
  push_cast
  conv_rhs => rw [← Rat.num_div_den a, ← Rat.num_div_den b]
  rw [div_sub_div _ _ ha hb]
  ring_nf

lemma qmul_eq (a b : ℚ) : qmul a b = a * b := by
  rw [qmul, Rat.divInt_eq_div]
  push_cast
  conv_rhs => rw [← Rat.num_div_den a, ← Rat.num_div_den b]
  rw [div_mul_div_comm]

lemma qdiv_eq (a b : ℚ) : qdiv a b = a / b := by
  rcases eq_or_ne b 0 with hb | hb
  · subst hb
    rw [qdiv]
    norm_num
  · have ha : ((a.den : ℚ)) ≠ 0 := by exact_mod_cast a.den_nz
    have hbd : ((b.den : ℚ)) ≠ 0 := by exact_mod_cast b.den_nz
    have hbn : ((b.num : ℚ)) ≠ 0 := by exact_mod_cast Rat.num_ne_zero.mpr hb
    rw [qdiv, Rat.divInt_eq_div]
    push_cast
    conv_rhs => rw [← Rat.num_div_den a, ← Rat.num_div_den b]
    rw [div_div_div_comm]
    rw [div_div_eq_mul_div, div_mul_eq_mul_div, mul_comm, div_div,
      mul_comm ((b.num : ℚ)) ((a.den : ℚ))]

lemma qabs_eq (a : ℚ) : qabs a = |a| := by
  by_cases h : a < 0
  · rw [qabs, if_pos h, abs_of_neg h]
  · rw [qabs, if_neg h, abs_of_nonneg (not_lt.mp h)]

lemma orZero_eq_getD (x : Option ℚ) : orZero x = x.getD 0 := by
  cases x with
  | none => rfl
  | some v =>
    by_cases h : v = 0
    · simp [orZero, h]
    · simp [orZero, h]

/-! ## Properties of the rounding model -/

lemma roundHalfEven_dist (y : ℚ) : |((roundHalfEven y : ℤ) : ℚ) - y| ≤ 1 / 2 := by
  have hfl : ((Int.floor y : ℤ) : ℚ) ≤ y := Int.floor_le y
  have hfu : y < ((Int.floor y : ℤ) : ℚ) + 1 := Int.lt_floor_add_one y
  rw [roundHalfEven]
  simp only [qsub_eq, qdiv_eq]
  by_cases h1 : y - ((Int.floor y : ℤ) : ℚ) < 1 / 2
  · rw [if_pos h1, abs_le]
    constructor <;> linarith
  · rw [if_neg h1]
    by_cases h2 : (1 : ℚ) / 2 < y - ((Int.floor y : ℤ) : ℚ)
    · rw [if_pos h2, abs_le]
      push_cast
      constructor <;> linarith
    · rw [if_neg h2]
      by_cases h3 : Int.floor y % 2 = 0
      · rw [if_pos h3, abs_le]
        constructor <;> linarith
      · rw [if_neg h3, abs_le]
        push_cast
        constructor <;> linarith

lemma pow10_cast (n : Nat) : (((10 : ℤ) ^ n : ℤ) : ℚ) = (10 : ℚ) ^ n := by
  push_cast
  ring

lemma pyRound_dist (x : ℚ) (n : Nat) : |pyRound x n - x| ≤ 1 / (2 * 10 ^ n) := by
  have hp : (0 : ℚ) < (10 : ℚ) ^ n := by positivity
  have key := roundHalfEven_dist (x * (10 : ℚ) ^ n)
  rw [pyRound, qdiv_eq, qmul_eq, pow10_cast]
  have hsplit : ((roundHalfEven (x * (10 : ℚ) ^ n) : ℤ) : ℚ) / (10 : ℚ) ^ n - x
      = (((roundHalfEven (x * (10 : ℚ) ^ n) : ℤ) : ℚ) - x * (10 : ℚ) ^ n) / (10 : ℚ) ^ n := by
    field_simp
    ring
  rw [hsplit, abs_div, abs_of_pos hp,
    div_le_div_iff hp (by positivity : (0 : ℚ) < 2 * 10 ^ n)]
  nlinarith [mul_le_mul_of_nonneg_right key
    (le_of_lt (by positivity : (0 : ℚ) < 2 * 10 ^ n))]

/-! ## Dictionary and fold decomposition lemmas -/

lemma lookup_cons (a k : String) (b : CatResult) (es : List (String × CatResult)) :
    List.lookup a ((k, b) :: es) = if a = k then some b else List.lookup a es := by
  by_cases h : a = k
  · simp [List.lookup, h]
  · have hb : (a == k) = false := by simp [h]
    simp [List.lookup, hb, h]

lemma dictInsert_lookup (d : List (String × CatResult)) (k : String) (v : CatResult)
    (c : String) :
    (dictInsert d k v).lookup c = if c = k then some v else d.lookup c := by
  induction d with
  | nil =>
    show List.lookup c [(k, v)] = _
    rw [lookup_cons]
  | cons kv rest ih =>
    cases kv with
    | mk k1 v1 =>
      by_cases hk : k1 = k
      · rw [dictInsert]
        simp only [if_pos hk]
        rw [lookup_cons, lookup_cons]
        by_cases h : c = k
        · simp [h]
        · have h1 : ¬ c = k1 := fun hh => h (hk ▸ hh)
          simp [h, h1]
      · rw [dictInsert]
        simp only [if_neg hk]
        rw [lookup_cons, lookup_cons]
        by_cases hc1 : c = k1
        · have hck : ¬ c = k := fun hh => hk (hc1 ▸ hh)
          simp [hc1, hck, hk]
        · simp [hc1, ih]

lemma foldBest_cons (b : Best) (e : Entry) (L : List Entry) :
    foldBest b (e :: L) = foldBest (if b.ssim < e.s then entryBest e else b) L := by
  rw [foldBest, foldBest, List.foldl_cons]

lemma foldl_processSample (env : Env) (u : Img) (sh : Nat × Nat) (c : String)
    (L : List String) : ∀ ss ms b,
    L.foldl (processSample env u sh c) (ss, ms, b)
      = (ss ++ (catEntries env u sh c L).map (fun e => e.s),
         ms ++ (catEntries env u sh c L).map (fun e => e.m),
         foldBest b (catEntries env u sh c L)) := by
  induction L with
  | nil => intro ss ms b; simp [catEntries, foldBest]
  | cons p L ih =>
    intro ss ms b
    rw [List.foldl_cons]
    cases h : sampleOutcome env u sh p with
    | none =>
      rw [processSample, h]
      rw [ih ss ms b]
      simp [catEntries, List.filterMap_cons, h]
    | some sm =>
      rw [processSample, h]
      simp only
      rw [ih]
      simp only [catEntries, List.filterMap_cons, h, Option.map_some, List.map_cons,
        List.append_assoc, List.singleton_append, foldBest_cons]
      rfl

lemma processCategory_eq (env : Env) (u : Img) (sh : Nat × Nat) (n : Nat)
    (st : List (String × CatResult) × Best) (c : String) :
    processCategory env u sh n st c
      = (dictInsert st.1 c (catSummary env u sh n c),
         foldBest st.2 (catEntriesFull env u sh n c)) := by
  rw [processCategory, catSummary, catEntriesFull]
  by_cases hdir : env.isdir (pathJoin env.base_data_dir c) = false
  · simp [hdir, foldBest]
  · rw [if_neg hdir, if_neg hdir]
    simp only
    by_cases hf : (((env.listdir (pathJoin env.base_data_dir c)).filter
        isEligibleName).map (fun f => pathJoin (pathJoin env.base_data_dir c) f)).isEmpty
    · simp [hf, foldBest]
    · have hmap : ∀ (f : Entry → ℚ) (E : List Entry), (E.map f).isEmpty = E.isEmpty := by
        intro f E
        cases E <;> rfl
      simp only [hf, if_false, Bool.false_eq_true]
      rw [foldl_processSample]
      simp only [List.nil_append, List.length_map, hmap]

lemma runCategories_lookup (env : Env) (u : Img) (sh : Nat × Nat) (n : Nat)
    (cats : List String) (c : String) : ∀ st : List (String × CatResult) × Best,
    ((cats.foldl (processCategory env u sh n) st).1).lookup c
      = if c ∈ cats then some (catSummary env u sh n c) else st.1.lookup c := by
  induction cats with
  | nil => intro st; simp
  | cons c0 cs ih =>
    intro st
    rw [List.foldl_cons, ih]
    by_cases hmem : c ∈ cs
    · simp [hmem, List.mem_cons]
    · rw [if_neg hmem]
      rw [processCategory_eq]
      simp only [dictInsert_lookup]
      by_cases hc : c = c0
      · simp [hc]
      · simp [hc, List.mem_cons, hmem]

lemma foldBest_append (b : Best) (L1 L2 : List Entry) :
    foldBest b (L1 ++ L2) = foldBest (foldBest b L1) L2 := by
  rw [foldBest, foldBest, foldBest, List.foldl_append]

lemma runCategories_best (env : Env) (u : Img) (sh : Nat × Nat) (n : Nat)
    (cats : List String) : ∀ st : List (String × CatResult) × Best,
    (cats.foldl (processCategory env u sh n) st).2
      = foldBest st.2 (runEntries env u sh n cats) := by
  induction cats with
  | nil => intro st; simp [runEntries, foldBest]
  | cons c0 cs ih =>
    intro st
    rw [List.foldl_cons, ih, processCategory_eq]
    simp only [runEntries, foldBest_append]

/-! ## Properties of the running best-match tracker -/

lemma foldBest_ssim_mono (b : Best) (L : List Entry) : b.ssim ≤ (foldBest b L).ssim := by
  induction L generalizing b with
  | nil => exact le_refl _
  | cons e L ih =>
    rw [foldBest_cons]
    by_cases h : b.ssim < e.s
    · rw [if_pos h]
      exact le_trans (le_of_lt h) (ih (entryBest e))
    · rw [if_neg h]
      exact ih b

lemma foldBest_dominates (b : Best) (L : List Entry) :
    ∀ e ∈ L, e.s ≤ (foldBest b L).ssim := by
  induction L generalizing b with
  | nil => intro e he; cases he
  | cons e0 L ih =>
    intro e he
    rw [foldBest_cons]
    rcases List.mem_cons.mp he with he0 | heL
    · subst he0
      by_cases h : b.ssim < e.s
      · rw [if_pos h]
        exact le_trans (le_refl e.s) (foldBest_ssim_mono (entryBest e) L)
      · rw [if_neg h]
        exact le_trans (not_lt.mp h) (foldBest_ssim_mono b L)
    · by_cases h : b.ssim < e0.s
      · rw [if_pos h]; exact ih (entryBest e0) e heL
      · rw [if_neg h]; exact ih b e heL

lemma foldBest_no_update (b : Best) (L : List Entry) (h : ∀ e ∈ L, e.s ≤ b.ssim) :
    foldBest b L = b := by
  induction L with
  | nil => rfl
  | cons e0 L ih =>
    rw [foldBest_cons, if_neg (not_lt.mpr (h e0 (List.mem_cons_self e0 L)))]
    exact ih (fun e he => h e (List.mem_cons_of_mem e0 he))

lemma foldBest_cases (b : Best) (L : List Entry) :
    foldBest b L = b ∨ ∃ e ∈ L, foldBest b L = entryBest e := by
  induction L generalizing b with
  | nil => exact Or.inl rfl
  | cons e0 L ih =>
    rw [foldBest_cons]
    by_cases h : b.ssim < e0.s
    · rw [if_pos h]
      rcases ih (entryBest e0) with h1 | ⟨e, he, h2⟩
      · exact Or.inr ⟨e0, List.mem_cons_self e0 L, h1⟩
      · exact Or.inr ⟨e, List.mem_cons_of_mem e0 he, h2⟩
    · rw [if_neg h]
      rcases ih b with h1 | ⟨e, he, h2⟩
      · exact Or.inl h1
      · exact Or.inr ⟨e, List.mem_cons_of_mem e0 he, h2⟩

lemma foldBest_first_max (b : Best) (L : List Entry) (h : ∃ e ∈ L, b.ssim < e.s) :
    ∃ pre e post, L = pre ++ e :: post ∧ foldBest b L = entryBest e
      ∧ (∀ e' ∈ pre, e'.s < e.s) ∧ b.ssim < e.s := by
  induction L generalizing b with
  | nil => obtain ⟨e, he, _⟩ := h; cases he
  | cons e0 L ih =>
    rw [foldBest_cons]
    by_cases h0 : b.ssim < e0.s
    · rw [if_pos h0]
      by_cases h1 : ∃ e ∈ L, e0.s < e.s
      · obtain ⟨pre, e, post, hL, hfold, hpre, hlt⟩ := ih (entryBest e0) h1
        refine ⟨e0 :: pre, e, post, by rw [hL, List.cons_append], hfold, ?_, lt_trans h0 hlt⟩
        intro e' he'
        rcases List.mem_cons.mp he' with he0 | hep
        · subst he0; exact hlt
        · exact hpre e' hep
      · push_neg at h1
        refine ⟨[], e0, L, rfl, foldBest_no_update (entryBest e0) L h1, ?_, h0⟩
        intro e' he'
        cases he'
    · rw [if_neg h0]
      have h' : ∃ e ∈ L, b.ssim < e.s := by
        obtain ⟨e, he, hlt⟩ := h
        rcases List.mem_cons.mp he with he0 | heL
        · subst he0; exact absurd hlt h0
        · exact ⟨e, heL, hlt⟩
      obtain ⟨pre, e, post, hL, hfold, hpre, hlt⟩ := ih b h'
      refine ⟨e0 :: pre, e, post, by rw [hL, List.cons_append], hfold, ?_, hlt⟩
      intro e' he'
      rcases List.mem_cons.mp he' with he0 | hep
      · subst he0; exact lt_of_le_of_lt (not_lt.mp h0) hlt
      · exact hpre e' hep

/-! ## Paths and sizes of the successful samples -/

lemma catEntries_mem (env : Env) (u : Img) (sh : Nat × Nat) (c : String)
    (paths : List String) (e : Entry) (he : e ∈ catEntries env u sh c paths) :
    e.path ∈ paths ∧ e.category = c := by
  rw [catEntries, List.mem_filterMap] at he
  obtain ⟨p, hp, hf⟩ := he
  cases hq : sampleOutcome env u sh p with
  | none => rw [hq] at hf; cases hf
  | some sm =>
    rw [hq] at hf
    simp only [Option.map] at hf
    cases hf
    exact ⟨hp, rfl⟩

lemma pathJoin_ne_empty (a b : String) : pathJoin a b ≠ ("") := by
  intro h
  have hlen := congrArg String.length h
  rw [pathJoin, String.length_append, String.length_append] at hlen
  have h1 : ("/" : String).length = 1 := rfl
  have h0 : ("" : String).length = 0 := rfl
  rw [h1, h0] at hlen
  omega

lemma catEntriesFull_path (env : Env) (u : Img) (sh : Nat × Nat) (n : Nat) (c : String)
    (hmem : ∀ l k x, x ∈ env.randomSample l k → x ∈ l)
    (e : Entry) (he : e ∈ catEntriesFull env u sh n c) :
    ∃ f, e.path = pathJoin (pathJoin env.base_data_dir c) f := by
  rw [catEntriesFull] at he
  by_cases hdir : env.isdir (pathJoin env.base_data_dir c) = false
  · rw [if_pos hdir] at he; cases he
  · rw [if_neg hdir] at he
    simp only at he
    by_cases hf : (((env.listdir (pathJoin env.base_data_dir c)).filter
        isEligibleName).map (fun f => pathJoin (pathJoin env.base_data_dir c) f)).isEmpty
    · rw [if_pos hf] at he; cases he
    · rw [if_neg hf] at he
      have hpath := (catEntries_mem env u sh c _ e he).1
      have hin := hmem _ _ _ hpath
      rw [List.mem_map] at hin
      obtain ⟨f, _, hfe⟩ := hin
      exact ⟨f, hfe.symm⟩

lemma runEntries_path_ne (env : Env) (u : Img) (sh : Nat × Nat) (n : Nat)
    (cats : List String) (hmem : ∀ l k x, x ∈ env.randomSample l k → x ∈ l)
    (e : Entry) (he : e ∈ runEntries env u sh n cats) : e.path ≠ ("") := by
  induction cats with
  | nil => cases he
  | cons c cs ih =>
    rw [runEntries, List.mem_append] at he
    rcases he with hc | hcs
    · obtain ⟨f, hf⟩ := catEntriesFull_path env u sh n c hmem e hc
      rw [hf]
      exact pathJoin_ne_empty _ _
    · exact ih hcs

lemma catEntriesFull_length (env : Env) (u : Img) (sh : Nat × Nat) (n : Nat) (c : String)
    (hlen : ∀ l k, (env.randomSample l k).length ≤ k) :
    (catEntriesFull env u sh n c).length ≤ min n (eligibleFiles env c).length := by
  rw [catEntriesFull]
  by_cases hdir : env.isdir (pathJoin env.base_data_dir c) = false
  · rw [if_pos hdir]; exact Nat.zero_le _
  · rw [if_neg hdir]
    simp only
    by_cases hf : (((env.listdir (pathJoin env.base_data_dir c)).filter
        isEligibleName).map (fun f => pathJoin (pathJoin env.base_data_dir c) f)).isEmpty
    · rw [if_pos hf]; exact Nat.zero_le _
    · rw [if_neg hf]
      have h1 : (catEntries env u sh c (env.randomSample
          (((env.listdir (pathJoin env.base_data_dir c)).filter isEligibleName).map
            (fun f => pathJoin (pathJoin env.base_data_dir c) f))
          (min n (((env.listdir (pathJoin env.base_data_dir c)).filter
            isEligibleName).map (fun f => pathJoin (pathJoin env.base_data_dir c) f)).length))).length
          ≤ (env.randomSample
          (((env.listdir (pathJoin env.base_data_dir c)).filter isEligibleName).map
            (fun f => pathJoin (pathJoin env.base_data_dir c) f))
          (min n (((env.listdir (pathJoin env.base_data_dir c)).filter
            isEligibleName).map (fun f => pathJoin (pathJoin env.base_data_dir c) f)).length)).length :=
        List.length_filterMap_le _ _
      refine le_trans (le_trans h1 (hlen _ _)) ?_
      rw [List.length_map, eligibleFiles]

lemma catEntriesFull_nil (env : Env) (u : Img) (sh : Nat × Nat) (n : Nat) (c : String)
    (h : env.isdir (pathJoin env.base_data_dir c) = false ∨ eligibleFiles env c = []) :
    catEntriesFull env u sh n c = [] := by
  rw [catEntriesFull]
  by_cases hdir : env.isdir (pathJoin env.base_data_dir c) = false
  · rw [if_pos hdir]
  · rw [if_neg hdir]
    rcases h with h | h
    · exact absurd h hdir
    · rw [eligibleFiles] at h
      simp [h]

/-! ## The returned record in terms of the run views -/

lemma summaryOf_lookup (env : Env) (up0 : Img) (n : Nat) (cats : List String) (c : String) :
    (summaryOf env up0 n cats).lookup c
      = if c ∈ cats
        then some (catSummary env (env.toFloat01 up0) (env.toFloat01 up0).shape n c)
        else none := by
  rw [summaryOf, runCategories, runCategories_lookup]
  rfl

lemma bestOf_eq (env : Env) (up0 : Img) (n : Nat) (cats : List String) :
    bestOf env up0 n cats = foldBest initBest (runEntriesOf env up0 n cats) := by
  rw [bestOf, runCategories, runCategories_best, runEntriesOf]

lemma catSummary_samples (env : Env) (u : Img) (sh : Nat × Nat) (n : Nat) (c : String) :
    (catSummary env u sh n c).samples_compared = (catEntriesFull env u sh n c).length := rfl

lemma recordOf_eq (env : Env) (up0 : Img) (n : Nat) (cats : List String) :
    recordOf env up0 n cats = Record.mk
      (match (bestOf env up0 n cats).path with
       | none => none
       | some p => if p = "" then none else some (bestOf env up0 n cats))
      (CatOut.mk (scoreOf env up0 n cats ("NORMAL"))
        (((summaryOf env up0 n cats).lookup ("NORMAL")).bind (fun r => r.avg_mse))
        (pyRound (qmul (qdiv (scoreOf env up0 n cats ("NORMAL")) (totalOf env up0 n cats)) 100) 2)
        ((((summaryOf env up0 n cats).lookup ("NORMAL")).map
          (fun r => r.samples_compared)).getD 0))
      (CatOut.mk (scoreOf env up0 n cats ("PNEUMONIA"))
        (((summaryOf env up0 n cats).lookup ("PNEUMONIA")).bind (fun r => r.avg_mse))
        (pyRound (qmul (qdiv (scoreOf env up0 n cats ("PNEUMONIA")) (totalOf env up0 n cats)) 100) 2)
        ((((summaryOf env up0 n cats).lookup ("PNEUMONIA")).map
          (fun r => r.samples_compared)).getD 0))
      (pyRound (qabs (qsub (scoreOf env up0 n cats ("PNEUMONIA"))
        (scoreOf env up0 n cats ("NORMAL")))) 4)
      (if qabs (qsub (scoreOf env up0 n cats ("PNEUMONIA"))
          (scoreOf env up0 n cats ("NORMAL"))) < qdiv 2 100
       then uncertainMsg
       else if scoreOf env up0 n cats ("NORMAL") < scoreOf env up0 n cats ("PNEUMONIA")
       then pneumoniaMsg else normalMsg) := rfl

lemma compare_ok (env : Env) (p : String) (n : Nat) (cats : List String) (up0 : Img)
    (h : env.preprocess_image p = some up0) :
    compare_with_dataset env p n cats = Except.ok (recordOf env up0 n cats) := by
  rw [compare_with_dataset, h]

lemma compare_ok_elim (env : Env) (p : String) (n : Nat) (cats : List String) (rec : Record)
    (h : compare_with_dataset env p n cats = Except.ok rec) :
    ∃ up0, env.preprocess_image p = some up0 ∧ rec = recordOf env up0 n cats := by
  cases hq : env.preprocess_image p with
  | none => rw [compare_with_dataset, hq] at h; cases h
  | some up0 =>
    rw [compare_with_dataset, hq] at h
    cases h
    exact ⟨up0, rfl, rfl⟩

/-! ## The claims -/

/-- C2: for every input path, compare_with_dataset raises ValueError
exactly when the uploaded image cannot be preprocessed (the preprocess
oracle yields None for it), in which case no result record exists; and
whenever preprocessing succeeds the call returns a full record and
raises nothing. -/
theorem C2_value_error_iff (env : Env) (p : String) (n : Nat) (cats : List String) :
    ((∃ err, compare_with_dataset env p n cats = Except.error err)
        ↔ env.preprocess_image p = none)
      ∧ (env.preprocess_image p = none
        → compare_with_dataset env p n cats
            = Except.error (PyError.valueError preprocessFailMsg))
      ∧ (∀ up0, env.preprocess_image p = some up0
        → compare_with_dataset env p n cats = Except.ok (recordOf env up0 n cats)) := by
  refine ⟨⟨?_, ?_⟩, ?_, ?_⟩
  · rintro ⟨err, herr⟩
    cases h : env.preprocess_image p with
    | none => rfl
    | some u => rw [compare_with_dataset, h] at herr; cases herr
  · intro h
    exact ⟨PyError.valueError preprocessFailMsg, by rw [compare_with_dataset, h]⟩
  · intro h
    rw [compare_with_dataset, h]
  · intro up0 h
    exact compare_ok env p n cats up0 h

/-- C2 witness: at the concrete world envFail, whose input cannot be
preprocessed, the equivalence is instantiated and its hypotheses
discharged by evaluation. -/
theorem C2_value_error_iff_witness :
    ((∃ err, compare_with_dataset envFail ("u") 40 defaultCategories = Except.error err)
        ↔ envFail.preprocess_image ("u") = none)
      ∧ (envFail.preprocess_image ("u") = none
        → compare_with_dataset envFail ("u") 40 defaultCategories
            = Except.error (PyError.valueError preprocessFailMsg))
      ∧ (∀ up0, envFail.preprocess_image ("u") = some up0
        → compare_with_dataset envFail ("u") 40 defaultCategories
            = Except.ok (recordOf envFail up0 40 defaultCategories)) :=
  C2_value_error_iff envFail ("u") 40 defaultCategories

/-- C9: the comparator is a pure function of its environment: two
worlds that agree pointwise on every oracle (same input image bytes,
same corpus listing, same random draw, same metric values) produce
identical result records on every call. -/
theorem C9_deterministic (e1 e2 : Env)
    (h1 : e1.base_data_dir = e2.base_data_dir)
    (h2 : ∀ s, e1.preprocess_image s = e2.preprocess_image s)
    (h3 : ∀ s, e1.isdir s = e2.isdir s)
    (h4 : ∀ s, e1.listdir s = e2.listdir s)
    (h5 : ∀ l k, e1.randomSample l k = e2.randomSample l k)
    (h6 : ∀ i, e1.toFloat01 i = e2.toFloat01 i)
    (h7 : ∀ i s, e1.cvResize i s = e2.cvResize i s)
    (h8 : ∀ i j, e1.ssimFn i j = e2.ssimFn i j)
    (h9 : ∀ i j, e1.mseFn i j = e2.mseFn i j)
    (p : String) (n : Nat) (cats : List String) :
    compare_with_dataset e1 p n cats = compare_with_dataset e2 p n cats := by
  have he : e1 = e2 := by
    cases e1 with
    | mk b1 pr1 is1 ls1 rs1 tf1 cr1 sf1 mf1 =>
      cases e2 with
      | mk b2 pr2 is2 ls2 rs2 tf2 cr2 sf2 mf2 =>
        simp only at h1 h2 h3 h4 h5 h6 h7 h8 h9
        have g2 : pr1 = pr2 := funext h2
        have g3 : is1 = is2 := funext h3
        have g4 : ls1 = ls2 := funext h4
        have g5 : rs1 = rs2 := funext fun l => funext fun k => h5 l k
        have g6 : tf1 = tf2 := funext h6
        have g7 : cr1 = cr2 := funext fun i => funext fun s => h7 i s
        have g8 : sf1 = sf2 := funext fun i => funext fun j => h8 i j
        have g9 : mf1 = mf2 := funext fun i => funext fun j => h9 i j
        rw [h1, g2, g3, g4, g5, g6, g7, g8, g9]
  rw [he]

/-- C9 witness: instantiated at the concrete world envA compared with
itself, all agreement hypotheses discharged by rfl. -/
theorem C9_deterministic_witness :
    compare_with_dataset envA ("u") 40 defaultCategories
      = compare_with_dataset envA ("u") 40 defaultCategories :=
  C9_deterministic envA envA rfl (fun _ => rfl) (fun _ => rfl) (fun _ => rfl)
    (fun _ _ => rfl) (fun _ => rfl) (fun _ _ => rfl) (fun _ _ => rfl) (fun _ _ => rfl)
    ("u") 40 defaultCategories

/-- C1: in every returned record the two reported avg_ssim values are
exactly the category decision scores a (NORMAL) and b (PNEUMONIA),
each the category median taken as 0.0 without valid samples, and the
verdict is the uncertain message iff the absolute margin between them
is below 0.02; otherwise it is the pneumonia message when b exceeds a
and the normal message when b is at most a. -/
theorem C1_decision_boundary (env : Env) (p : String) (n : Nat) (cats : List String)
    (up0 : Img) (rec : Record)
    (hup : env.preprocess_image p = some up0)
    (hok : compare_with_dataset env p n cats = Except.ok rec) :
    rec.summary_NORMAL.avg_ssim = scoreOf env up0 n cats ("NORMAL")
    ∧ rec.summary_PNEUMONIA.avg_ssim = scoreOf env up0 n cats ("PNEUMONIA")
    ∧ (rec.prediction = uncertainMsg
        ↔ |rec.summary_PNEUMONIA.avg_ssim - rec.summary_NORMAL.avg_ssim| < 2 / 100)
    ∧ (¬ |rec.summary_PNEUMONIA.avg_ssim - rec.summary_NORMAL.avg_ssim| < 2 / 100
        → (rec.summary_NORMAL.avg_ssim < rec.summary_PNEUMONIA.avg_ssim
            → rec.prediction = pneumoniaMsg)
          ∧ (rec.summary_PNEUMONIA.avg_ssim ≤ rec.summary_NORMAL.avg_ssim
            → rec.prediction = normalMsg)) := by
  obtain ⟨u, hu, hrec⟩ := compare_ok_elim env p n cats rec hok
  rw [hup] at hu
  cases hu
  subst hrec
  rw [recordOf_eq]
  refine ⟨rfl, rfl, ?_, ?_⟩
  all_goals dsimp only
  all_goals simp only [qabs_eq, qsub_eq, qdiv_eq]
  · by_cases hd : |scoreOf env up0 n cats ("PNEUMONIA") - scoreOf env up0 n cats ("NORMAL")|
        < 2 / 100
    · rw [if_pos hd]
      exact ⟨fun _ => hd, fun _ => rfl⟩
    · rw [if_neg hd]
      constructor
      · intro hmsg
        by_cases hab : scoreOf env up0 n cats ("NORMAL") < scoreOf env up0 n cats ("PNEUMONIA")
        · rw [if_pos hab] at hmsg
          exact absurd hmsg (by decide)
        · rw [if_neg hab] at hmsg
          exact absurd hmsg (by decide)
      · intro hd'
        exact absurd hd' hd
  · intro hd
    rw [if_neg hd]
    constructor
    · intro hab
      rw [if_pos hab]
    · intro hba
      rw [if_neg (not_lt.mpr hba)]

/-- C1 witness: instantiated at the concrete world envA, where the
NORMAL score is 1/2 and the PNEUMONIA score is 0. -/
theorem C1_decision_boundary_witness :
    (recordOf envA imgW 40 defaultCategories).summary_NORMAL.avg_ssim
        = scoreOf envA imgW 40 defaultCategories ("NORMAL")
    ∧ (recordOf envA imgW 40 defaultCategories).summary_PNEUMONIA.avg_ssim
        = scoreOf envA imgW 40 defaultCategories ("PNEUMONIA")
    ∧ ((recordOf envA imgW 40 defaultCategories).prediction = uncertainMsg
        ↔ |(recordOf envA imgW 40 defaultCategories).summary_PNEUMONIA.avg_ssim
            - (recordOf envA imgW 40 defaultCategories).summary_NORMAL.avg_ssim| < 2 / 100)
    ∧ (¬ |(recordOf envA imgW 40 defaultCategories).summary_PNEUMONIA.avg_ssim
            - (recordOf envA imgW 40 defaultCategories).summary_NORMAL.avg_ssim| < 2 / 100
        → ((recordOf envA imgW 40 defaultCategories).summary_NORMAL.avg_ssim
              < (recordOf envA imgW 40 defaultCategories).summary_PNEUMONIA.avg_ssim
            → (recordOf envA imgW 40 defaultCategories).prediction = pneumoniaMsg)
          ∧ ((recordOf envA imgW 40 defaultCategories).summary_PNEUMONIA.avg_ssim
              ≤ (recordOf envA imgW 40 defaultCategories).summary_NORMAL.avg_ssim
            → (recordOf envA imgW 40 defaultCategories).prediction = normalMsg)) :=
  C1_decision_boundary envA ("u") 40 defaultCategories imgW
    (recordOf envA imgW 40 defaultCategories) rfl rfl

/-- C4 counterexample: in the world envC4 the NORMAL directory is
absent, yet the record returned for it reports avg_ssim as the number
0.0 (the avg_ssim field of the output summary carries the coalesced
score, a float, never a null); only avg_mse is null.  The claim that
both aggregates are null is therefore false on the code. -/
theorem C4_null_aggregates_counterexample :
    (compare_with_dataset envC4 ("u") 40 defaultCategories).map
      (fun r => (r.summary_NORMAL.avg_ssim, r.summary_NORMAL.avg_mse,
        r.summary_NORMAL.samples_compared))
      = Except.ok ((0 : ℚ), (none : Option ℚ), 0) := by decide

/-- C4 amended: when a category's directory is absent or holds no
eligible files, the call still returns a full record in which that
category's samples_compared is 0 and its avg_mse is null, and the call
does not raise; its avg_ssim, however, is reported as the number 0.0
rather than null. -/
theorem C4_graceful_degradation (env : Env) (p : String) (n : Nat) (cats : List String)
    (up0 : Img) (hup : env.preprocess_image p = some up0) :
    ∃ rec, compare_with_dataset env p n cats = Except.ok rec
      ∧ ((env.isdir (pathJoin env.base_data_dir ("NORMAL")) = false
            ∨ eligibleFiles env ("NORMAL") = [])
          → rec.summary_NORMAL.samples_compared = 0
            ∧ rec.summary_NORMAL.avg_mse = none
            ∧ rec.summary_NORMAL.avg_ssim = 0)
      ∧ ((env.isdir (pathJoin env.base_data_dir ("PNEUMONIA")) = false
            ∨ eligibleFiles env ("PNEUMONIA") = [])
          → rec.summary_PNEUMONIA.samples_compared = 0
            ∧ rec.summary_PNEUMONIA.avg_mse = none
            ∧ rec.summary_PNEUMONIA.avg_ssim = 0) := by
  refine ⟨recordOf env up0 n cats, compare_ok env p n cats up0 hup, ?_, ?_⟩
  · intro hempty
    have hnil := catEntriesFull_nil env (env.toFloat01 up0) (env.toFloat01 up0).shape n
      ("NORMAL") hempty
    rw [recordOf_eq]
    dsimp only
    rw [summaryOf_lookup]
    constructor
    · by_cases hmem : ("NORMAL" : String) ∈ cats
      · rw [if_pos hmem]
        simp [catSummary_samples, hnil]
      · rw [if_neg hmem]
        rfl
    constructor
    · by_cases hmem : ("NORMAL" : String) ∈ cats
      · rw [if_pos hmem]
        simp [catSummary, hnil]
      · rw [if_neg hmem]
        rfl
    · rw [scoreOf, summaryOf_lookup]
      by_cases hmem : ("NORMAL" : String) ∈ cats
      · rw [if_pos hmem]
        simp [catSummary, hnil, orZero]
      · rw [if_neg hmem]
        rfl
  · intro hempty
    have hnil := catEntriesFull_nil env (env.toFloat01 up0) (env.toFloat01 up0).shape n
      ("PNEUMONIA") hempty
    rw [recordOf_eq]
    dsimp only
    rw [summaryOf_lookup]
    constructor
    · by_cases hmem : ("PNEUMONIA" : String) ∈ cats
      · rw [if_pos hmem]
        simp [catSummary_samples, hnil]
      · rw [if_neg hmem]
        rfl
    constructor
    · by_cases hmem : ("PNEUMONIA" : String) ∈ cats
      · rw [if_pos hmem]
        simp [catSummary, hnil]
      · rw [if_neg hmem]
        rfl
    · rw [scoreOf, summaryOf_lookup]
      by_cases hmem : ("PNEUMONIA" : String) ∈ cats
      · rw [if_pos hmem]
        simp [catSummary, hnil, orZero]
      · rw [if_neg hmem]
        rfl

/-- C4 witness: instantiated at the concrete world envC4, whose NORMAL
directory is absent, with the hypotheses discharged by evaluation. -/
theorem C4_graceful_degradation_witness :
    ∃ rec, compare_with_dataset envC4 ("u") 40 defaultCategories = Except.ok rec
      ∧ ((envC4.isdir (pathJoin envC4.base_data_dir ("NORMAL")) = false
            ∨ eligibleFiles envC4 ("NORMAL") = [])
          → rec.summary_NORMAL.samples_compared = 0
            ∧ rec.summary_NORMAL.avg_mse = none
            ∧ rec.summary_NORMAL.avg_ssim = 0)
      ∧ ((envC4.isdir (pathJoin envC4.base_data_dir ("PNEUMONIA")) = false
            ∨ eligibleFiles envC4 ("PNEUMONIA") = [])
          → rec.summary_PNEUMONIA.samples_compared = 0
            ∧ rec.summary_PNEUMONIA.avg_mse = none
            ∧ rec.summary_PNEUMONIA.avg_ssim = 0) :=
  C4_graceful_degradation envC4 ("u") 40 defaultCategories imgW rfl

/-- C5 counterexample: in the world envC5 the NORMAL median similarity
is -1/2 (a negative ssim value, inside the [-1, 1] range the metric
admits) and the PNEUMONIA score is 0; the two scores are not both
zero, yet the zero-total guard of line 100 substitutes a denominator
of 1 and the similarity percentages are -50 and 0, which do not sum to
100. -/
theorem C5_percentage_counterexample :
    ((compare_with_dataset envC5 ("u") 40 defaultCategories).map
      (fun r => (r.summary_NORMAL.avg_ssim, r.summary_PNEUMONIA.avg_ssim,
        r.summary_NORMAL.similarity_percent, r.summary_PNEUMONIA.similarity_percent))
      = Except.ok (qdiv (-1) 2, (0 : ℚ), (-50 : ℚ), (0 : ℚ)))
    ∧ ¬(qdiv (-1) 2 = (0 : ℚ) ∧ (0 : ℚ) = (0 : ℚ))
    ∧ ((-50 : ℚ) + 0 ≠ 100) := by
  refine ⟨by decide, by decide, by norm_num⟩

/-- C5 amended: whenever the sum of the two category scores is
positive, the two reported similarity percentages sum to 100 up to the
rounding tolerance of 1/100 introduced by round(x, 2); and when both
scores are exactly 0 both percentages are exactly 0.  (The original
claim asserted the 100-sum whenever the scores are not both zero; that
fails for negative similarity scores, as the counterexample shows.) -/
theorem C5_percentage_invariant (env : Env) (p : String) (n : Nat) (cats : List String)
    (rec : Record) (hok : compare_with_dataset env p n cats = Except.ok rec) :
    (0 < rec.summary_NORMAL.avg_ssim + rec.summary_PNEUMONIA.avg_ssim
      → |rec.summary_NORMAL.similarity_percent + rec.summary_PNEUMONIA.similarity_percent
          - 100| ≤ 1 / 100)
    ∧ (rec.summary_NORMAL.avg_ssim = 0 ∧ rec.summary_PNEUMONIA.avg_ssim = 0
      → rec.summary_NORMAL.similarity_percent = 0
        ∧ rec.summary_PNEUMONIA.similarity_percent = 0) := by
  obtain ⟨up0, hu, hrec⟩ := compare_ok_elim env p n cats rec hok
  subst hrec
  rw [recordOf_eq]
  dsimp only
  rw [totalOf]
  simp only [qadd_eq, qdiv_eq, qmul_eq]
  constructor
  · intro hpos
    rw [if_pos hpos]
    set a := scoreOf env up0 n cats ("NORMAL") with ha
    set b := scoreOf env up0 n cats ("PNEUMONIA") with hb
    have hne : a + b ≠ 0 := ne_of_gt hpos
    have hsum : a / (a + b) * 100 + b / (a + b) * 100 = 100 := by
      field_simp
      ring
    have d1 := pyRound_dist (a / (a + b) * 100) 2
    have d2 := pyRound_dist (b / (a + b) * 100) 2
    have hval : (1 : ℚ) / (2 * 10 ^ 2) = 1 / 200 := by norm_num
    rw [hval] at d1 d2
    have hrw : pyRound (a / (a + b) * 100) 2 + pyRound (b / (a + b) * 100) 2 - 100
        = (pyRound (a / (a + b) * 100) 2 - a / (a + b) * 100)
          + (pyRound (b / (a + b) * 100) 2 - b / (a + b) * 100) := by
      linarith [hsum]
    rw [hrw]
    calc |(pyRound (a / (a + b) * 100) 2 - a / (a + b) * 100)
          + (pyRound (b / (a + b) * 100) 2 - b / (a + b) * 100)|
        ≤ |pyRound (a / (a + b) * 100) 2 - a / (a + b) * 100|
          + |pyRound (b / (a + b) * 100) 2 - b / (a + b) * 100| := abs_add _ _
      _ ≤ 1 / 200 + 1 / 200 := add_le_add d1 d2
      _ ≤ 1 / 100 := by norm_num
  · rintro ⟨ha0, hb0⟩
    have h0 : pyRound 0 2 = 0 := by decide
    rw [ha0, hb0]
    norm_num [h0]

/-- C5 witness: instantiated at the concrete world envA, where the
scores are 1/2 and 0, with the run hypothesis discharged by rfl. -/
theorem C5_percentage_invariant_witness :
    (0 < (recordOf envA imgW 40 defaultCategories).summary_NORMAL.avg_ssim
        + (recordOf envA imgW 40 defaultCategories).summary_PNEUMONIA.avg_ssim
      → |(recordOf envA imgW 40 defaultCategories).summary_NORMAL.similarity_percent
          + (recordOf envA imgW 40 defaultCategories).summary_PNEUMONIA.similarity_percent
          - 100| ≤ 1 / 100)
    ∧ ((recordOf envA imgW 40 defaultCategories).summary_NORMAL.avg_ssim = 0
        ∧ (recordOf envA imgW 40 defaultCategories).summary_PNEUMONIA.avg_ssim = 0
      → (recordOf envA imgW 40 defaultCategories).summary_NORMAL.similarity_percent = 0
        ∧ (recordOf envA imgW 40 defaultCategories).summary_PNEUMONIA.similarity_percent = 0) :=
  C5_percentage_invariant envA ("u") 40 defaultCategories
    (recordOf envA imgW 40 defaultCategories) rfl

/-- C7: provided the random sampler returns at most the requested
number of files (as random.sample does), each category's reported
samples_compared never exceeds min(sample_size, number of eligible
files in that category's directory). -/
theorem C7_sample_size_bound (env : Env) (p : String) (n : Nat) (cats : List String)
    (rec : Record)
    (hlen : ∀ l k, (env.randomSample l k).length ≤ k)
    (hok : compare_with_dataset env p n cats = Except.ok rec) :
    rec.summary_NORMAL.samples_compared ≤ min n (eligibleFiles env ("NORMAL")).length
    ∧ rec.summary_PNEUMONIA.samples_compared
        ≤ min n (eligibleFiles env ("PNEUMONIA")).length := by
  obtain ⟨up0, hu, hrec⟩ := compare_ok_elim env p n cats rec hok
  subst hrec
  rw [recordOf_eq]
  dsimp only
  simp only [summaryOf_lookup]
  constructor
  · by_cases hmem : ("NORMAL" : String) ∈ cats
    · rw [if_pos hmem]
      show (catSummary env (env.toFloat01 up0) (env.toFloat01 up0).shape n
        ("NORMAL")).samples_compared ≤ _
      rw [catSummary_samples]
      exact catEntriesFull_length env _ _ n ("NORMAL") hlen
    · rw [if_neg hmem]
      exact Nat.zero_le _
  · by_cases hmem : ("PNEUMONIA" : String) ∈ cats
    · rw [if_pos hmem]
      show (catSummary env (env.toFloat01 up0) (env.toFloat01 up0).shape n
        ("PNEUMONIA")).samples_compared ≤ _
      rw [catSummary_samples]
      exact catEntriesFull_length env _ _ n ("PNEUMONIA") hlen
    · rw [if_neg hmem]
      exact Nat.zero_le _

/-- C7 witness: instantiated at the concrete world envA, whose prefix
sampler satisfies the length bound by List.length_take_le. -/
theorem C7_sample_size_bound_witness :
    (recordOf envA imgW 40 defaultCategories).summary_NORMAL.samples_compared
        ≤ min 40 (eligibleFiles envA ("NORMAL")).length
    ∧ (recordOf envA imgW 40 defaultCategories).summary_PNEUMONIA.samples_compared
        ≤ min 40 (eligibleFiles envA ("PNEUMONIA")).length :=
  C7_sample_size_bound envA ("u") 40 defaultCategories
    (recordOf envA imgW 40 defaultCategories)
    (fun l k => List.length_take_le k l) rfl

/-- C8 counterexample: in the world envC8 the single NORMAL sample is
successfully compared with similarity exactly -1, so samples_compared
is 1; but the best-match update of line 73 requires a similarity
strictly above the -1.0 sentinel, so best_match is still null.  The
claimed equivalence (best_match non-null iff at least one sample was
successfully compared) is therefore false on the code. -/
theorem C8_best_match_counterexample :
    (compare_with_dataset envC8 ("u") 40 defaultCategories).map
      (fun r => (r.best_match, r.summary_NORMAL.samples_compared))
      = Except.ok ((none : Option Best), 1) := by decide

/-- C8 amended: best_match is non-null exactly when some sampled file
was successfully compared with similarity strictly greater than the
-1.0 sentinel of the initial tracker.  (The original claim drew the
line at mere success; a successful sample of similarity exactly -1
leaves best_match null, as the counterexample shows.)  The sampler is
assumed to return members of its input list, as random.sample does. -/
theorem C8_best_match_iff (env : Env) (p : String) (n : Nat) (cats : List String)
    (up0 : Img) (rec : Record)
    (hmem : ∀ l k x, x ∈ env.randomSample l k → x ∈ l)
    (hup : env.preprocess_image p = some up0)
    (hok : compare_with_dataset env p n cats = Except.ok rec) :
    rec.best_match ≠ none ↔ ∃ e ∈ runEntriesOf env up0 n cats, -1 < e.s := by
  obtain ⟨u, hu, hrec⟩ := compare_ok_elim env p n cats rec hok
  rw [hup] at hu
  cases hu
  subst hrec
  rw [recordOf_eq]
  dsimp only
  rw [bestOf_eq]
  constructor
  · intro hne
    by_contra hnot
    push_neg at hnot
    have hall : ∀ e ∈ runEntriesOf env up0 n cats, e.s ≤ initBest.ssim := by
      intro e he
      exact le_trans (hnot e he) (by norm_num [initBest])
    rw [foldBest_no_update initBest _ hall] at hne
    exact hne rfl
  · rintro ⟨e, he, hgt⟩
    have hssim : (-1 : ℚ) < (foldBest initBest (runEntriesOf env up0 n cats)).ssim :=
      lt_of_lt_of_le hgt (foldBest_dominates initBest _ e he)
    rcases foldBest_cases initBest (runEntriesOf env up0 n cats) with hc | ⟨e', he', hc⟩
    · rw [hc] at hssim
      norm_num [initBest] at hssim
    · rw [hc]
      have hpne : e'.path ≠ ("") :=
        runEntries_path_ne env (env.toFloat01 up0) (env.toFloat01 up0).shape n cats hmem e' he'
      simp [entryBest, hpne]

/-- C8 witness: instantiated at the concrete world envA, where the one
NORMAL sample has similarity 1/2 > -1 and best_match is present. -/
theorem C8_best_match_iff_witness :
    (recordOf envA imgW 40 defaultCategories).best_match ≠ none
      ↔ ∃ e ∈ runEntriesOf envA imgW 40 defaultCategories, -1 < e.s :=
  C8_best_match_iff envA ("u") 40 defaultCategories imgW
    (recordOf envA imgW 40 defaultCategories)
    (fun l k _ hx => List.take_subset k l hx) rfl rfl

/-- C6: when a best match is reported, its similarity is at least
every individual sample similarity successfully computed during the
run across both categories; moreover the best match is the first-seen
sample attaining that value: it decomposes the run so that every
earlier sample has strictly smaller similarity (so a later sample with
equal similarity never replaces it). -/
theorem C6_best_match_max (env : Env) (p : String) (n : Nat) (cats : List String)
    (up0 : Img) (rec : Record) (bm : Best)
    (hup : env.preprocess_image p = some up0)
    (hok : compare_with_dataset env p n cats = Except.ok rec)
    (hbm : rec.best_match = some bm) :
    (∀ e ∈ runEntriesOf env up0 n cats, e.s ≤ bm.ssim)
    ∧ ∃ pre e post, runEntriesOf env up0 n cats = pre ++ e :: post
        ∧ bm = entryBest e ∧ ∀ e' ∈ pre, e'.s < e.s := by
  obtain ⟨u, hu, hrec⟩ := compare_ok_elim env p n cats rec hok
  rw [hup] at hu
  cases hu
  subst hrec
  rw [recordOf_eq] at hbm
  dsimp only at hbm
  rw [bestOf_eq] at hbm
  cases hp : (foldBest initBest (runEntriesOf env up0 n cats)).path with
  | none => rw [hp] at hbm; cases hbm
  | some pp =>
    rw [hp] at hbm
    dsimp only at hbm
    by_cases hpe : pp = ""
    · rw [if_pos hpe] at hbm
      cases hbm
    · rw [if_neg hpe] at hbm
      have hbmEq : bm = foldBest initBest (runEntriesOf env up0 n cats) :=
        (Option.some.injEq _ _ ▸ hbm).symm
      constructor
      · intro e he
        rw [hbmEq]
        exact foldBest_dominates initBest _ e he
      · have hex : ∃ e ∈ runEntriesOf env up0 n cats, initBest.ssim < e.s := by
          by_contra hno
          push_neg at hno
          rw [foldBest_no_update initBest _ hno] at hp
          cases hp
        obtain ⟨pre, e, post, hLd, hfold, hpre, _⟩ :=
          foldBest_first_max initBest (runEntriesOf env up0 n cats) hex
        exact ⟨pre, e, post, hLd, by rw [hbmEq, hfold], hpre⟩

/-- C6 witness: instantiated at the concrete world envA, whose best
match is the single NORMAL sample with similarity 1/2. -/
theorem C6_best_match_max_witness :
    (∀ e ∈ runEntriesOf envA imgW 40 defaultCategories,
        e.s ≤ (Best.mk (some ("NORMAL")) (qdiv 1 2) (some 0) (some ("d/NORMAL/a.jpg"))).ssim)
    ∧ ∃ pre e post, runEntriesOf envA imgW 40 defaultCategories = pre ++ e :: post
        ∧ Best.mk (some ("NORMAL")) (qdiv 1 2) (some 0) (some ("d/NORMAL/a.jpg")) = entryBest e
        ∧ ∀ e' ∈ pre, e'.s < e.s :=
  C6_best_match_max envA ("u") 40 defaultCategories imgW
    (recordOf envA imgW 40 defaultCategories)
    (Best.mk (some ("NORMAL")) (qdiv 1 2) (some 0) (some ("d/NORMAL/a.jpg")))
    rfl rfl (by decide)

/-- C10: the returned summary has exactly the NORMAL and PNEUMONIA
blocks (by the shape of the record), and the two summary blocks, the
confidence margin and the prediction are computed solely from those
two categories' runs: filtering every other name out of the categories
argument changes none of them (such names can influence the record
only through the best_match tracker). -/
theorem C10_extra_categories (env : Env) (p : String) (n : Nat) (cats : List String)
    (up0 : Img) (rec rec' : Record)
    (hup : env.preprocess_image p = some up0)
    (hok : compare_with_dataset env p n cats = Except.ok rec)
    (hok' : compare_with_dataset env p n
      (cats.filter (fun c => c == "NORMAL" || c == "PNEUMONIA")) = Except.ok rec') :
    rec.summary_NORMAL = rec'.summary_NORMAL
    ∧ rec.summary_PNEUMONIA = rec'.summary_PNEUMONIA
    ∧ rec.confidence_diff = rec'.confidence_diff
    ∧ rec.prediction = rec'.prediction := by
  obtain ⟨u, hu, hrec⟩ := compare_ok_elim env p n cats rec hok
  rw [hup] at hu
  cases hu
  subst hrec
  obtain ⟨u', hu', hrec'⟩ := compare_ok_elim env p n _ rec' hok'
  rw [hup] at hu'
  cases hu'
  subst hrec'
  have hN : (summaryOf env up0 n (cats.filter
        (fun c => c == "NORMAL" || c == "PNEUMONIA"))).lookup ("NORMAL")
      = (summaryOf env up0 n cats).lookup ("NORMAL") := by
    rw [summaryOf_lookup, summaryOf_lookup]
    have hiff : (("NORMAL" : String) ∈ cats.filter
        (fun c => c == "NORMAL" || c == "PNEUMONIA")) ↔ ("NORMAL" : String) ∈ cats := by
      simp [List.mem_filter]
    by_cases h : ("NORMAL" : String) ∈ cats
    · rw [if_pos h, if_pos (hiff.mpr h)]
    · rw [if_neg h, if_neg (fun hh => h (hiff.mp hh))]
  have hP : (summaryOf env up0 n (cats.filter
        (fun c => c == "NORMAL" || c == "PNEUMONIA"))).lookup ("PNEUMONIA")
      = (summaryOf env up0 n cats).lookup ("PNEUMONIA") := by
    rw [summaryOf_lookup, summaryOf_lookup]
    have hiff : (("PNEUMONIA" : String) ∈ cats.filter
        (fun c => c == "NORMAL" || c == "PNEUMONIA")) ↔ ("PNEUMONIA" : String) ∈ cats := by
      simp [List.mem_filter]
    by_cases h : ("PNEUMONIA" : String) ∈ cats
    · rw [if_pos h, if_pos (hiff.mpr h)]
    · rw [if_neg h, if_neg (fun hh => h (hiff.mp hh))]
  have hsN : scoreOf env up0 n (cats.filter
        (fun c => c == "NORMAL" || c == "PNEUMONIA")) ("NORMAL")
      = scoreOf env up0 n cats ("NORMAL") := by
    rw [scoreOf, scoreOf, hN]
  have hsP : scoreOf env up0 n (cats.filter
        (fun c => c == "NORMAL" || c == "PNEUMONIA")) ("PNEUMONIA")
      = scoreOf env up0 n cats ("PNEUMONIA") := by
    rw [scoreOf, scoreOf, hP]
  have hT : totalOf env up0 n (cats.filter (fun c => c == "NORMAL" || c == "PNEUMONIA"))
      = totalOf env up0 n cats := by
    rw [totalOf, totalOf, hsN, hsP]
  rw [recordOf_eq, recordOf_eq]
  dsimp only
  rw [hN, hP, hsN, hsP, hT]
  exact ⟨rfl, rfl, rfl, rfl⟩

/-- C10 witness: instantiated at the concrete world envA with an extra
category name OTHER in the categories argument. -/
theorem C10_extra_categories_witness :
    (recordOf envA imgW 40 (["NORMAL", "PNEUMONIA", "OTHER"])).summary_NORMAL
        = (recordOf envA imgW 40 ((["NORMAL", "PNEUMONIA", "OTHER"] : List String).filter
            (fun c => c == "NORMAL" || c == "PNEUMONIA"))).summary_NORMAL
    ∧ (recordOf envA imgW 40 (["NORMAL", "PNEUMONIA", "OTHER"])).summary_PNEUMONIA
        = (recordOf envA imgW 40 ((["NORMAL", "PNEUMONIA", "OTHER"] : List String).filter
            (fun c => c == "NORMAL" || c == "PNEUMONIA"))).summary_PNEUMONIA
    ∧ (recordOf envA imgW 40 (["NORMAL", "PNEUMONIA", "OTHER"])).confidence_diff
        = (recordOf envA imgW 40 ((["NORMAL", "PNEUMONIA", "OTHER"] : List String).filter
            (fun c => c == "NORMAL" || c == "PNEUMONIA"))).confidence_diff
    ∧ (recordOf envA imgW 40 (["NORMAL", "PNEUMONIA", "OTHER"])).prediction
        = (recordOf envA imgW 40 ((["NORMAL", "PNEUMONIA", "OTHER"] : List String).filter
            (fun c => c == "NORMAL" || c == "PNEUMONIA"))).prediction :=
  C10_extra_categories envA ("u") 40 (["NORMAL", "PNEUMONIA", "OTHER"]) imgW
    (recordOf envA imgW 40 (["NORMAL", "PNEUMONIA", "OTHER"]))
    (recordOf envA imgW 40 ((["NORMAL", "PNEUMONIA", "OTHER"] : List String).filter
      (fun c => c == "NORMAL" || c == "PNEUMONIA")))
    rfl rfl rfl

/-- C3: preprocess_image never propagates an exception: it always
yields an ordinary value; any exception inside the pipeline (decode,
resize, min-max normalization, CLAHE, Gaussian blur) and any input
that cv2.imread cannot decode both give the result None; and, under
the documented behavior of the cv2 routines (resize to 512x512 yields
a 512x512 8-bit grid, the remaining routines preserve dimensions and
the 8-bit range), every successful result is a 512x512 single-channel
grid with values in the 8-bit range. -/
theorem C3_preprocess_total (cv : CvEnv) (p : String)
    (hres : ∀ g g', cv.resize g (512, 512) = Except.ok g' → isGrid512 g' ∧ inByteRange g')
    (hnorm : ∀ g g', cv.normalizeMinMax g = Except.ok g'
      → (isGrid512 g → isGrid512 g') ∧ inByteRange g')
    (hclahe : ∀ cl t g g', cv.claheApply cl t g = Except.ok g'
      → (isGrid512 g → isGrid512 g') ∧ inByteRange g')
    (hblur : ∀ g k s g', cv.gaussianBlur g k s = Except.ok g'
      → (isGrid512 g → isGrid512 g') ∧ inByteRange g') :
    (∃ r, preprocess_image cv p = Except.ok r)
    ∧ (∀ e, tryPreprocessBody cv p = Except.error e → preprocess_image cv p = Except.ok none)
    ∧ (cv.imread p = Except.ok none → preprocess_image cv p = Except.ok none)
    ∧ (∀ g, preprocess_image cv p = Except.ok (some g) → isGrid512 g ∧ inByteRange g) := by
  refine ⟨?_, ?_, ?_, ?_⟩
  · rw [preprocess_image]
    cases tryPreprocessBody cv p with
    | error e => exact ⟨none, rfl⟩
    | ok r => exact ⟨r, rfl⟩
  · intro e he
    rw [preprocess_image, he]
  · intro hi
    rw [preprocess_image, tryPreprocessBody]
    simp only [hi, bind, Except.bind]
    rfl
  · intro g hg
    rw [preprocess_image] at hg
    cases htry : tryPreprocessBody cv p with
    | error e =>
      rw [htry] at hg
      cases hg
    | ok r =>
      rw [htry] at hg
      cases hg
      rw [tryPreprocessBody] at htry
      simp only [bind, Except.bind] at htry
      cases h1 : cv.imread p with
      | error e => rw [h1] at htry; cases htry
      | ok imgOpt =>
        rw [h1] at htry
        cases imgOpt with
        | none => simp only at htry; cases htry
        | some g0 =>
          simp only at htry
          cases h2 : cv.resize g0 (512, 512) with
          | error e => rw [h2] at htry; cases htry
          | ok g1 =>
            rw [h2] at htry
            simp only at htry
            cases h3 : cv.normalizeMinMax g1 with
            | error e => rw [h3] at htry; cases htry
            | ok g2 =>
              rw [h3] at htry
              simp only at htry
              cases h4 : cv.claheApply 2 (8, 8) g2 with
              | error e => rw [h4] at htry; cases htry
              | ok g3 =>
                rw [h4] at htry
                simp only at htry
                cases h5 : cv.gaussianBlur g3 (3, 3) 0 with
                | error e => rw [h5] at htry; cases htry
                | ok g4 =>
                  rw [h5] at htry
                  simp only at htry
                  cases htry
                  have p1 := hres g0 g1 h2
                  have p2 := hnorm g1 g2 h3
                  have p3 := hclahe 2 (8, 8) g2 g3 h4
                  have p4 := hblur g3 (3, 3) 0 g h5
                  exact ⟨p4.1 (p3.1 (p2.1 p1.1)), p4.2⟩

/-- C3 witness: instantiated at the concrete cv2 world cvEnvW, all of
whose routines raise, with the contract hypotheses discharged by
evaluation. -/
theorem C3_preprocess_total_witness :
    (∃ r, preprocess_image cvEnvW ("p") = Except.ok r)
    ∧ (∀ e, tryPreprocessBody cvEnvW ("p") = Except.error e
        → preprocess_image cvEnvW ("p") = Except.ok none)
    ∧ (cvEnvW.imread ("p") = Except.ok none → preprocess_image cvEnvW ("p") = Except.ok none)
    ∧ (∀ g, preprocess_image cvEnvW ("p") = Except.ok (some g)
        → isGrid512 g ∧ inByteRange g) :=
  C3_preprocess_total cvEnvW ("p")
    (fun g g' h => by cases h) (fun g g' h => by cases h)
    (fun cl t g g' h => by cases h) (fun g k s g' h => by cases h)

end MedVision
